import Mathlib

/-!
Shallow embedding of the validation core of `baseline-init`
(`pkg/validator/validator.go`): the schema-version router
`validateSecurityInsights` and the two validators
`validateSecurityInsightsV1` / `validateSecurityInsightsV2`.

Modelling choices:
* Go `time.Time` is modelled as `Int` (a timestamp); `a.After(b)` is `a > b`.
  `time.Parse(time.RFC3339, s)` is an explicit parameter
  `parseRFC3339 : String → Option Int` (the Go standard library is external
  to the repository; `none` models a parse error).
* The three `yaml.Unmarshal` calls the code performs on one byte buffer are
  modelled by a record `YamlInput` holding their three outcomes; the YAML
  library is external, and the code only consumes these outcomes.
  The routing header's type-ambiguous `schema-version interface{}` field is
  modelled by its `fmt.Sprintf("%v", ...)` stringification, which is the only
  way the code reads it (an absent field stringifies to `"<nil>"`).
* Go string slices distinguish `nil` from empty; `Option (List String)` keeps
  that distinction (`none` is the nil slice), and `goAppend` is Go `append`,
  which turns a nil slice into a one-element slice.
-/

namespace BaselineInit

/-- Go `time.Time`, modelled as an integer timestamp. -/
abbrev GoTime := Int

/-- `ValidationResult` from `validator.go`: `IsValid`, `Errors`, `Warnings`.
`none` models a nil Go slice, `some l` a non-nil slice with elements `l`. -/
structure ValidationResult where
  isValid : Bool
  errors : Option (List String)
  warnings : Option (List String)
  deriving Repr, DecidableEq

/-- Go `append` on a `[]string`: appending to a nil slice yields a non-nil
one-element slice. -/
def goAppend (s : Option (List String)) (x : String) : Option (List String) :=
  some (s.getD [] ++ [x])

/-- The statement pair `result.IsValid = false; result.Errors = append(result.Errors, msg)`
used at every required-field failure in `validator.go`. -/
def ValidationResult.addError (r : ValidationResult) (msg : String) : ValidationResult :=
  { r with isValid := false, errors := goAppend r.errors msg }

/-- The statement `result.Warnings = append(result.Warnings, msg)`. -/
def ValidationResult.addWarning (r : ValidationResult) (msg : String) : ValidationResult :=
  { r with warnings := goAppend r.warnings msg }

/-- The fresh result every validator starts from:
`&ValidationResult{IsValid: true, Errors: []string{}, Warnings: []string{}}`. -/
def freshResult : ValidationResult :=
  { isValid := true, errors := some [], warnings := some [] }

/-- `SecurityInsightsV1.Header`. -/
structure V1Header where
  schemaVersion : String
  expirationDate : String
  lastUpdated : String
  lastReviewed : String
  projectURL : String
  deriving Repr, DecidableEq

/-- `SecurityInsightsV1.ProjectLifecycle`. -/
structure V1ProjectLifecycle where
  status : String
  bugFixesOnly : Bool
  deriving Repr, DecidableEq

/-- `SecurityInsightsV1.ContributionPolicy`. -/
structure V1ContributionPolicy where
  acceptsPullRequests : Bool
  acceptsAutomatedPullRequests : Bool
  deriving Repr, DecidableEq

/-- One entry of `SecurityInsightsV1.SecurityContacts`. -/
structure SecurityContact where
  type : String
  value : String
  deriving Repr, DecidableEq

/-- `SecurityInsightsV1.VulnerabilityReporting`. -/
structure V1VulnerabilityReporting where
  acceptsVulnerabilityReports : Bool
  deriving Repr, DecidableEq

/-- `SecurityInsightsV1` from `validator.go` (schema v1.0.0 shape). -/
structure SecurityInsightsV1 where
  header : V1Header
  projectLifecycle : V1ProjectLifecycle
  contributionPolicy : V1ContributionPolicy
  securityContacts : List SecurityContact
  vulnerabilityReporting : V1VulnerabilityReporting
  deriving Repr, DecidableEq

/-- Header of the external `sitooling.SecurityInsights` structure, as the
fields the V2 validator reads (its `SchemaVersion` is a Go string there;
the local mirror `SecurityInsightsV2` in `validator.go` has the same shape). -/
structure V2Header where
  schemaVersion : String
  lastUpdated : String
  lastReviewed : String
  url : String
  deriving Repr, DecidableEq

/-- One entry of the V2 `Project.Administrators` list. -/
structure Administrator where
  name : String
  email : String
  deriving Repr, DecidableEq

/-- V2 `Project.VulnerabilityReporting`. -/
structure V2VulnerabilityReporting where
  reportsAccepted : Bool
  deriving Repr, DecidableEq

/-- V2 `Project` section. -/
structure V2Project where
  name : String
  administrators : List Administrator
  vulnerabilityReporting : V2VulnerabilityReporting
  deriving Repr, DecidableEq

/-- V2 `Repository` section. -/
structure V2Repository where
  url : String
  status : String
  acceptsChangeRequest : Bool
  acceptsAutomatedChangeRequest : Bool
  deriving Repr, DecidableEq

/-- `sitooling.SecurityInsights`, the parse target of the V2 validator
(restricted to the sections the validator reads). -/
structure SecurityInsights where
  header : V2Header
  project : V2Project
  repository : V2Repository
  deriving Repr, DecidableEq

/-- Character-list core of `goStartsWith`. -/
def charListStartsWith : List Char → List Char → Bool
  | _, [] => true
  | [], _ :: _ => false
  | c :: s, d :: t => if c = d then charListStartsWith s t else false

/-- Go `strings.HasPrefix(s, pre)`: does `s` start with `pre`? -/
def goStartsWith (s pre : String) : Bool :=
  charListStartsWith s.data pre.data

/-- `validStatuses := []string{"active", "archived", "concept", "moved", "wip"}`. -/
def validStatuses : List String := ["active", "archived", "concept", "moved", "wip"]

/-- The membership loop over `validStatuses` (both validators use the same one). -/
def statusIsKnown (status : String) : Bool :=
  validStatuses.contains status

/-- The `for i, contact := range si.SecurityContacts` loop of the V1 validator:
each contact missing `type` or `value` appends one indexed warning. -/
def contactLoop : ValidationResult → List SecurityContact → Nat → ValidationResult
  | r, [], _ => r
  | r, c :: rest, i =>
    let r := if c.type = "" then r.addWarning s!"Security contact {i} missing type" else r
    let r := if c.value = "" then r.addWarning s!"Security contact {i} missing value" else r
    contactLoop r rest (i + 1)

/-- The `for i, admin := range insights.Project.Administrators` loop of the
V2 validator: each administrator missing `name` or `email` appends one
indexed warning. -/
def adminLoop : ValidationResult → List Administrator → Nat → ValidationResult
  | r, [], _ => r
  | r, a :: rest, i =>
    let r := if a.name = "" then r.addWarning s!"Administrator {i} missing name" else r
    let r := if a.email = "" then r.addWarning s!"Administrator {i} missing email" else r
    adminLoop r rest (i + 1)

/-- `validateSecurityInsightsV1` from `validator.go`.  `parsed` is the outcome
of `yaml.Unmarshal(data, &si)`; `parseRFC3339` and `now` stand for
`time.Parse(time.RFC3339, ·)` and `time.Now()`. -/
def validateSecurityInsightsV1 (parseRFC3339 : String → Option GoTime) (now : GoTime)
    (parsed : Except String SecurityInsightsV1) : ValidationResult :=
  let result := freshResult
  match parsed with
  | .error err => result.addError ("Invalid YAML: " ++ err)
  | .ok si =>
    let result := if si.header.schemaVersion = "" then
        result.addError "Missing required field: header.schema-version" else result
    let result := if si.header.projectURL = "" then
        result.addError "Missing required field: header.project-url" else result
    let result :=
      if si.header.expirationDate = "" then
        result.addError "Missing required field: header.expiration-date"
      else
        match parseRFC3339 si.header.expirationDate with
        | none => result.addWarning "Invalid expiration-date format (should be RFC3339)"
        | some expirationDate =>
          if now > expirationDate then
            result.addWarning "File has expired - please update expiration-date"
          else result
    let result := if si.header.lastUpdated = "" then
        result.addWarning "Missing recommended field: header.last-updated" else result
    let result := if si.header.lastReviewed = "" then
        result.addWarning "Missing recommended field: header.last-reviewed" else result
    let result :=
      if si.projectLifecycle.status = "" then
        result.addError "Missing required field: project-lifecycle.status"
      else
        if statusIsKnown si.projectLifecycle.status then result
        else result.addWarning ("Unusual project-lifecycle.status: " ++
          si.projectLifecycle.status ++ " (expected one of: " ++
          String.intercalate ", " validStatuses ++ ")")
    let result :=
      if si.securityContacts.length = 0 then
        result.addWarning "No security-contacts specified"
      else contactLoop result si.securityContacts 0
    result

/-- `validateSecurityInsightsV2` from `validator.go`.  `parsed` is the outcome
of `yaml.Unmarshal(data, &insights)` into the external
`sitooling.SecurityInsights` structure. -/
def validateSecurityInsightsV2 (parsed : Except String SecurityInsights) : ValidationResult :=
  let result := freshResult
  match parsed with
  | .error err => result.addError ("Schema validation failed: " ++ err)
  | .ok insights =>
    if !goStartsWith insights.header.schemaVersion "2." then
      result.addError ("Invalid schema version: " ++ insights.header.schemaVersion ++
        " (expected 2.x.x)")
    else
      let result := if insights.header.lastUpdated = "" then
          result.addWarning "Missing recommended field: header.last-updated" else result
      let result := if insights.header.lastReviewed = "" then
          result.addWarning "Missing recommended field: header.last-reviewed" else result
      let result := if insights.header.url = "" then
          result.addError "Missing required field: header.url" else result
      let result := if insights.project.name = "" then
          result.addWarning "Missing recommended field: project.name" else result
      let result :=
        if insights.project.administrators.length = 0 then
          result.addWarning "No project administrators specified"
        else adminLoop result insights.project.administrators 0
      let result := if insights.repository.url = "" then
          result.addError "Missing required field: repository.url" else result
      let result :=
        if insights.repository.status = "" then
          result.addError "Missing required field: repository.status"
        else
          if statusIsKnown insights.repository.status then result
          else result.addWarning ("Unusual repository.status: " ++
            insights.repository.status ++ " (expected one of: " ++
            String.intercalate ", " validStatuses ++ ")")
      result

/-- The outcomes of the three `yaml.Unmarshal` calls `validateSecurityInsights`
and the two validators perform on one byte buffer.  `headerParse` is the
routing unmarshal into the anonymous header struct; on success it carries the
`fmt.Sprintf("%v", header.Header.SchemaVersion)` stringification. -/
structure YamlInput where
  headerParse : Except String String
  v1Parse : Except String SecurityInsightsV1
  v2Parse : Except String SecurityInsights
  deriving Repr

/-- The dispatch decision of `validateSecurityInsights`. -/
inductive Route
  | invalidYaml
  | v1
  | v2
  deriving Repr, DecidableEq

/-- Which branch of `validateSecurityInsights` handles the input. -/
def routeOf (input : YamlInput) : Route :=
  match input.headerParse with
  | .error _ => .invalidYaml
  | .ok schemaVersion => if goStartsWith schemaVersion "2." then .v2 else .v1

/-- `validateSecurityInsights` from `validator.go`: unmarshal the routing
header, fail on malformed YAML, otherwise dispatch on whether the stringified
`schema-version` starts with `"2."`. -/
def validateSecurityInsights (parseRFC3339 : String → Option GoTime) (now : GoTime)
    (input : YamlInput) : ValidationResult :=
  let result := freshResult
  match input.headerParse with
  | .error err => result.addError ("Invalid YAML: " ++ err)
  | .ok schemaVersion =>
    if goStartsWith schemaVersion "2." then
      validateSecurityInsightsV2 input.v2Parse
    else
      validateSecurityInsightsV1 parseRFC3339 now input.v1Parse

/-!
Closed forms for the two validators, used to reason about the accumulated
error and warning lists.  They are proved equal to the validators below
(`v1_ok_eq`, `v2_ok_eq`); claims are stated against the validators themselves.
-/

/-- The error messages the V1 validator accumulates on a successful parse,
in emission order. -/
def v1Errors (si : SecurityInsightsV1) : List String :=
  (if si.header.schemaVersion = "" then ["Missing required field: header.schema-version"] else []) ++
  (if si.header.projectURL = "" then ["Missing required field: header.project-url"] else []) ++
  (if si.header.expirationDate = "" then ["Missing required field: header.expiration-date"] else []) ++
  (if si.projectLifecycle.status = "" then ["Missing required field: project-lifecycle.status"] else [])

/-- The warnings the V1 expiration-date check emits. -/
def v1ExpirationWarnings (parseRFC3339 : String → Option GoTime) (now : GoTime)
    (si : SecurityInsightsV1) : List String :=
  if si.header.expirationDate = "" then []
  else
    match parseRFC3339 si.header.expirationDate with
    | none => ["Invalid expiration-date format (should be RFC3339)"]
    | some expirationDate =>
      if now > expirationDate then ["File has expired - please update expiration-date"] else []

/-- The warnings emitted by the V1 security-contacts loop. -/
def contactWarnList : List SecurityContact → Nat → List String
  | [], _ => []
  | c :: rest, i =>
    ((if c.type = "" then [s!"Security contact {i} missing type"] else []) ++
     (if c.value = "" then [s!"Security contact {i} missing value"] else [])) ++
    contactWarnList rest (i + 1)

/-- The warnings emitted by the V2 administrators loop. -/
def adminWarnList : List Administrator → Nat → List String
  | [], _ => []
  | a :: rest, i =>
    ((if a.name = "" then [s!"Administrator {i} missing name"] else []) ++
     (if a.email = "" then [s!"Administrator {i} missing email"] else [])) ++
    adminWarnList rest (i + 1)

/-- The warning message for an unusual status value (same wording in both
validators up to the field name). -/
def unusualStatusMsg (field status : String) : String :=
  "Unusual " ++ field ++ ": " ++ status ++ " (expected one of: " ++
    String.intercalate ", " validStatuses ++ ")"

/-- The warnings the V1 validator accumulates on a successful parse,
in emission order. -/
def v1Warnings (parseRFC3339 : String → Option GoTime) (now : GoTime)
    (si : SecurityInsightsV1) : List String :=
  v1ExpirationWarnings parseRFC3339 now si ++
  (if si.header.lastUpdated = "" then ["Missing recommended field: header.last-updated"] else []) ++
  (if si.header.lastReviewed = "" then ["Missing recommended field: header.last-reviewed"] else []) ++
  (if si.projectLifecycle.status = "" then []
   else if statusIsKnown si.projectLifecycle.status then []
   else [unusualStatusMsg "project-lifecycle.status" si.projectLifecycle.status]) ++
  (if si.securityContacts.length = 0 then ["No security-contacts specified"]
   else contactWarnList si.securityContacts 0)

/-- The error messages the V2 validator accumulates on a successful parse
with a matching schema version, in emission order. -/
def v2Errors (insights : SecurityInsights) : List String :=
  (if insights.header.url = "" then ["Missing required field: header.url"] else []) ++
  (if insights.repository.url = "" then ["Missing required field: repository.url"] else []) ++
  (if insights.repository.status = "" then ["Missing required field: repository.status"] else [])

/-- The warnings the V2 validator accumulates on a successful parse with a
matching schema version, in emission order. -/
def v2Warnings (insights : SecurityInsights) : List String :=
  (if insights.header.lastUpdated = "" then ["Missing recommended field: header.last-updated"] else []) ++
  (if insights.header.lastReviewed = "" then ["Missing recommended field: header.last-reviewed"] else []) ++
  (if insights.project.name = "" then ["Missing recommended field: project.name"] else []) ++
  (if insights.project.administrators.length = 0 then ["No project administrators specified"]
   else adminWarnList insights.project.administrators 0) ++
  (if insights.repository.status = "" then []
   else if statusIsKnown insights.repository.status then []
   else [unusualStatusMsg "repository.status" insights.repository.status])

/-!  Concrete sample documents, used by the witness theorems. -/

/-- A sample stand-in for `time.Parse(time.RFC3339, ·)`: recognises exactly
one timestamp string. -/
def sampleParse (s : String) : Option GoTime :=
  if s = "2001-01-01T00:00:00Z" then some 100 else none

/-- A V1 document with every checked field empty. -/
def emptyV1 : SecurityInsightsV1 :=
  { header := { schemaVersion := "", expirationDate := "", lastUpdated := "",
                lastReviewed := "", projectURL := "" },
    projectLifecycle := { status := "", bugFixesOnly := false },
    contributionPolicy := { acceptsPullRequests := false, acceptsAutomatedPullRequests := false },
    securityContacts := [],
    vulnerabilityReporting := { acceptsVulnerabilityReports := false } }

/-- A V1 document with all required fields present, an expiration date the
sample parser accepts, and an unusual lifecycle status. -/
def fullV1 : SecurityInsightsV1 :=
  { header := { schemaVersion := "1.0.0", expirationDate := "2001-01-01T00:00:00Z",
                lastUpdated := "2001-01-01T00:00:00Z", lastReviewed := "2001-01-01T00:00:00Z",
                projectURL := "https://example.com/repo" },
    projectLifecycle := { status := "maintenance", bugFixesOnly := false },
    contributionPolicy := { acceptsPullRequests := true, acceptsAutomatedPullRequests := false },
    securityContacts := [{ type := "email", value := "security@example.com" }],
    vulnerabilityReporting := { acceptsVulnerabilityReports := true } }

/-- A V2 document with schema version 2.0.0 and the three required fields empty. -/
def emptyV2 : SecurityInsights :=
  { header := { schemaVersion := "2.0.0", lastUpdated := "2024-01-01",
                lastReviewed := "2024-01-01", url := "" },
    project := { name := "proj", administrators := [{ name := "a", email := "a@example.com" }],
                 vulnerabilityReporting := { reportsAccepted := true } },
    repository := { url := "", status := "", acceptsChangeRequest := false,
                    acceptsAutomatedChangeRequest := false } }

/-- A V2 document with all required fields present and an unusual repository status. -/
def fullV2 : SecurityInsights :=
  { header := { schemaVersion := "2.0.0", lastUpdated := "2024-01-01",
                lastReviewed := "2024-01-01", url := "https://example.com/repo" },
    project := { name := "proj", administrators := [{ name := "a", email := "a@example.com" }],
                 vulnerabilityReporting := { reportsAccepted := true } },
    repository := { url := "https://example.com/repo", status := "maintenance",
                    acceptsChangeRequest := true, acceptsAutomatedChangeRequest := false } }

/-- A V2 document whose schema version does not start with `"2."`. -/
def wrongVersionV2 : SecurityInsights :=
  { header := { schemaVersion := "1.0.0", lastUpdated := "", lastReviewed := "", url := "" },
    project := { name := "", administrators := [], vulnerabilityReporting := { reportsAccepted := false } },
    repository := { url := "", status := "", acceptsChangeRequest := false,
                    acceptsAutomatedChangeRequest := false } }

/-- An input whose routing unmarshal fails. -/
def malformedInput : YamlInput :=
  { headerParse := .error "yaml: line 1: did not find expected node content",
    v1Parse := .error "yaml: line 1: did not find expected node content",
    v2Parse := .error "yaml: line 1: did not find expected node content" }

/-- An input routed to the V1 validator. -/
def v1Input : YamlInput :=
  { headerParse := .ok "1.0.0", v1Parse := .ok fullV1, v2Parse := .error "type mismatch" }

/-- An input routed to the V2 validator. -/
def v2Input : YamlInput :=
  { headerParse := .ok "2.0.0", v1Parse := .error "type mismatch", v2Parse := .ok fullV2 }

/-!  Helper lemmas shared by the claim theorems. -/

@[simp] theorem addError_isValid (r : ValidationResult) (m : String) :
    (r.addError m).isValid = false := rfl

@[simp] theorem addError_errors (r : ValidationResult) (m : String) :
    (r.addError m).errors = some (r.errors.getD [] ++ [m]) := rfl

@[simp] theorem addError_warnings (r : ValidationResult) (m : String) :
    (r.addError m).warnings = r.warnings := rfl

@[simp] theorem addWarning_isValid (r : ValidationResult) (m : String) :
    (r.addWarning m).isValid = r.isValid := rfl

@[simp] theorem addWarning_errors (r : ValidationResult) (m : String) :
    (r.addWarning m).errors = r.errors := rfl

@[simp] theorem addWarning_warnings (r : ValidationResult) (m : String) :
    (r.addWarning m).warnings = some (r.warnings.getD [] ++ [m]) := rfl

theorem ValidationResult.ext {a b : ValidationResult} (h1 : a.isValid = b.isValid)
    (h2 : a.errors = b.errors) (h3 : a.warnings = b.warnings) : a = b := by
  cases a; cases b; simp_all

@[simp] theorem contactLoop_errors (cs : List SecurityContact) :
    ∀ (r : ValidationResult) (i : Nat), (contactLoop r cs i).errors = r.errors := by
  induction cs with
  | nil => intro r i; rfl
  | cons c rest ih =>
    intro r i
    simp only [contactLoop]
    rw [ih]
    split <;> split <;> rfl

@[simp] theorem contactLoop_isValid (cs : List SecurityContact) :
    ∀ (r : ValidationResult) (i : Nat), (contactLoop r cs i).isValid = r.isValid := by
  induction cs with
  | nil => intro r i; rfl
  | cons c rest ih =>
    intro r i
    simp only [contactLoop]
    rw [ih]
    split <;> split <;> rfl

@[simp] theorem adminLoop_errors (as : List Administrator) :
    ∀ (r : ValidationResult) (i : Nat), (adminLoop r as i).errors = r.errors := by
  induction as with
  | nil => intro r i; rfl
  | cons a rest ih =>
    intro r i
    simp only [adminLoop]
    rw [ih]
    split <;> split <;> rfl

@[simp] theorem adminLoop_isValid (as : List Administrator) :
    ∀ (r : ValidationResult) (i : Nat), (adminLoop r as i).isValid = r.isValid := by
  induction as with
  | nil => intro r i; rfl
  | cons a rest ih =>
    intro r i
    simp only [adminLoop]
    rw [ih]
    split <;> split <;> rfl

/-- The V1 security-contacts loop only appends `contactWarnList` to the
warnings and leaves the other fields unchanged. -/
theorem contactLoop_spec (cs : List SecurityContact) :
    ∀ (r : ValidationResult) (i : Nat) (w : List String), r.warnings = some w →
      contactLoop r cs i = { r with warnings := some (w ++ contactWarnList cs i) } := by
  induction cs with
  | nil =>
    intro r i w h
    cases r
    simp_all [contactLoop, contactWarnList]
  | cons c rest ih =>
    intro r i w h
    cases r
    by_cases h1 : c.type = "" <;> by_cases h2 : c.value = "" <;>
      simp_all [contactLoop, contactWarnList, ValidationResult.addWarning, goAppend, ih]

/-- The V2 administrators loop only appends `adminWarnList` to the warnings
and leaves the other fields unchanged. -/
theorem adminLoop_spec (as : List Administrator) :
    ∀ (r : ValidationResult) (i : Nat) (w : List String), r.warnings = some w →
      adminLoop r as i = { r with warnings := some (w ++ adminWarnList as i) } := by
  induction as with
  | nil =>
    intro r i w h
    cases r
    simp_all [adminLoop, adminWarnList]
  | cons a rest ih =>
    intro r i w h
    cases r
    by_cases h1 : a.name = "" <;> by_cases h2 : a.email = "" <;>
      simp_all [adminLoop, adminWarnList, ValidationResult.addWarning, goAppend, ih]

set_option maxHeartbeats 4000000 in
/-- Closed form of the V1 validator on a successful parse. -/
theorem v1_ok_eq (p : String → Option GoTime) (now : GoTime) (si : SecurityInsightsV1) :
    validateSecurityInsightsV1 p now (.ok si) =
      { isValid := (v1Errors si).isEmpty,
        errors := some (v1Errors si),
        warnings := some (v1Warnings p now si) } := by
  by_cases h1 : si.header.schemaVersion = "" <;>
  by_cases h2 : si.header.projectURL = "" <;>
  by_cases h4 : si.header.lastUpdated = "" <;>
  by_cases h5 : si.header.lastReviewed = "" <;>
  by_cases h6 : si.projectLifecycle.status = "" <;>
  by_cases h8 : statusIsKnown si.projectLifecycle.status = true <;>
  by_cases h7 : si.securityContacts.length = 0 <;>
  by_cases h3 : si.header.expirationDate = ""
  all_goals rcases hp : p si.header.expirationDate with _ | t
  all_goals try by_cases hn : now > t
  all_goals simp [*, validateSecurityInsightsV1, v1Errors, v1Warnings, v1ExpirationWarnings,
    unusualStatusMsg, freshResult, ValidationResult.addError, ValidationResult.addWarning,
    goAppend, contactLoop_spec]

/-- The V1 validator on a failed parse. -/
theorem v1_error_eq (p : String → Option GoTime) (now : GoTime) (e : String) :
    validateSecurityInsightsV1 p now (.error e) =
      { isValid := false, errors := some ["Invalid YAML: " ++ e], warnings := some [] } := rfl

set_option maxHeartbeats 4000000 in
/-- Closed form of the V2 validator on a successful parse with a schema
version starting with `"2."`. -/
theorem v2_ok_eq (insights : SecurityInsights)
    (h : goStartsWith insights.header.schemaVersion "2." = true) :
    validateSecurityInsightsV2 (.ok insights) =
      { isValid := (v2Errors insights).isEmpty,
        errors := some (v2Errors insights),
        warnings := some (v2Warnings insights) } := by
  by_cases h1 : insights.header.lastUpdated = "" <;>
  by_cases h2 : insights.header.lastReviewed = "" <;>
  by_cases h3 : insights.header.url = "" <;>
  by_cases h4 : insights.project.name = "" <;>
  by_cases h5 : insights.project.administrators.length = 0 <;>
  by_cases h6 : insights.repository.url = "" <;>
  by_cases h7 : insights.repository.status = "" <;>
  by_cases h8 : statusIsKnown insights.repository.status = true <;>
  simp [*, validateSecurityInsightsV2, v2Errors, v2Warnings, unusualStatusMsg, freshResult,
    ValidationResult.addError, ValidationResult.addWarning, goAppend, adminLoop_spec]

/-- The V2 validator on a failed parse. -/
theorem v2_error_eq (e : String) :
    validateSecurityInsightsV2 (.error e) =
      { isValid := false, errors := some ["Schema validation failed: " ++ e],
        warnings := some [] } := rfl

/-- The V2 validator short-circuits on a schema version that does not start
with `"2."`, independently of every other field. -/
theorem v2_badVersion_eq (insights : SecurityInsights)
    (h : goStartsWith insights.header.schemaVersion "2." = false) :
    validateSecurityInsightsV2 (.ok insights) =
      { isValid := false,
        errors := some ["Invalid schema version: " ++ insights.header.schemaVersion ++
          " (expected 2.x.x)"],
        warnings := some [] } := by
  simp [validateSecurityInsightsV2, h, freshResult, ValidationResult.addError, goAppend]

/-- The router on a failed header unmarshal. -/
theorem validate_headerError_eq (p : String → Option GoTime) (now : GoTime)
    (input : YamlInput) (e : String) (h : input.headerParse = .error e) :
    validateSecurityInsights p now input =
      { isValid := false, errors := some ["Invalid YAML: " ++ e], warnings := some [] } := by
  simp [validateSecurityInsights, h, freshResult, ValidationResult.addError, goAppend]

/-- The router on a successful header unmarshal dispatches on the stringified
schema version. -/
theorem validate_route_eq (p : String → Option GoTime) (now : GoTime)
    (input : YamlInput) (sv : String) (h : input.headerParse = .ok sv) :
    validateSecurityInsights p now input =
      (if goStartsWith sv "2." then validateSecurityInsightsV2 input.v2Parse
       else validateSecurityInsightsV1 p now input.v1Parse) := by
  simp [validateSecurityInsights, h]

/-- `routeOf` on a successful header unmarshal. -/
theorem routeOf_ok (input : YamlInput) (sv : String) (h : input.headerParse = .ok sv) :
    routeOf input = (if goStartsWith sv "2." then Route.v2 else Route.v1) := by
  simp [routeOf, h]

/-- Every result of `validateSecurityInsights` is one of the six closed
forms established above. -/
theorem validate_result_cases (p : String → Option GoTime) (now : GoTime) (input : YamlInput)
    (P : ValidationResult → Prop)
    (hBad : ∀ e, P { isValid := false, errors := some ["Invalid YAML: " ++ e], warnings := some [] })
    (hV1ok : ∀ si, P { isValid := (v1Errors si).isEmpty, errors := some (v1Errors si), warnings := some (v1Warnings p now si) })
    (hV2e : ∀ e, P { isValid := false, errors := some ["Schema validation failed: " ++ e], warnings := some [] })
    (hV2bad : ∀ ins : SecurityInsights, P { isValid := false, errors := some ["Invalid schema version: " ++ ins.header.schemaVersion ++ " (expected 2.x.x)"], warnings := some [] })
    (hV2ok : ∀ ins : SecurityInsights, P { isValid := (v2Errors ins).isEmpty, errors := some (v2Errors ins), warnings := some (v2Warnings ins) }) :
    P (validateSecurityInsights p now input) := by
  rcases hh : input.headerParse with e | sv
  · rw [validate_headerError_eq p now input e hh]
    exact hBad e
  · rw [validate_route_eq p now input sv hh]
    by_cases hs : goStartsWith sv "2." = true <;> simp only [hs, if_true, if_false]
    · rcases hv : input.v2Parse with e | ins
      · rw [v2_error_eq]; exact hV2e e
      · by_cases hb : goStartsWith ins.header.schemaVersion "2." = true
        · rw [v2_ok_eq ins hb]; exact hV2ok ins
        · rw [v2_badVersion_eq ins (by simpa using hb)]; exact hV2bad ins
    · simp only [Bool.not_eq_true] at hs
      simp only [hs, Bool.false_eq_true, if_false]
      rcases hv : input.v1Parse with e | si
      · rw [v1_error_eq]; exact hBad e
      · rw [v1_ok_eq]; exact hV1ok si

/-!  The claims. -/

/-- C1: for every byte buffer whose routing unmarshal succeeds (well-formed
YAML) with stringified `header.schema-version` equal to `sv`,
`validateSecurityInsights` routes to the V2 validator exactly when `sv`
starts with `"2."`, and to the V1 validator in every other case (absent
field stringifies to `"<nil>"`, so absent/empty/`"1."`-prefixed versions all
go to V1). -/
theorem routing_selects_validator_by_schema_version
    (p : String → Option GoTime) (now : GoTime) (input : YamlInput) (sv : String)
    (h : input.headerParse = .ok sv) :
    (routeOf input = Route.v2 ↔ goStartsWith sv "2." = true) ∧
    (routeOf input = Route.v1 ↔ goStartsWith sv "2." = false) ∧
    validateSecurityInsights p now input =
      (if goStartsWith sv "2." then validateSecurityInsightsV2 input.v2Parse
       else validateSecurityInsightsV1 p now input.v1Parse) := by
  refine ⟨?_, ?_, validate_route_eq p now input sv h⟩ <;>
    rw [routeOf_ok input sv h] <;>
    by_cases hs : goStartsWith sv "2." = true <;>
    simp [hs]

/-- Witness for C1: a `"2.0.0"` header routes to V2, a `"1.0.0"` header
routes to V1 and yields the V1 validator's result. -/
theorem routing_selects_validator_by_schema_version_witness :
    routeOf v2Input = Route.v2 ∧ routeOf v1Input = Route.v1 ∧
    validateSecurityInsights sampleParse 0 v1Input =
      validateSecurityInsightsV1 sampleParse 0 v1Input.v1Parse := by
  refine ⟨?_, ?_, ?_⟩
  · exact (routing_selects_validator_by_schema_version sampleParse 0 v2Input
      "2.0.0" rfl).1.mpr (by decide)
  · exact (routing_selects_validator_by_schema_version sampleParse 0 v1Input
      "1.0.0" rfl).2.1.mpr (by decide)
  · have h := (routing_selects_validator_by_schema_version sampleParse 0 v1Input
      "1.0.0" rfl).2.2
    rw [show goStartsWith "1.0.0" "2." = false from by decide] at h
    simpa using h

/-- C2: if the V2 validator parses the document but the parsed
`header.schema-version` does not start with `"2."`, it returns
`isValid = false` with exactly one error naming the version and the expected
`2.x.x`, zero warnings, and the result is independent of every other field
(no subsequent check runs). -/
theorem v2_wrong_version_short_circuit (insights : SecurityInsights)
    (h : goStartsWith insights.header.schemaVersion "2." = false) :
    validateSecurityInsightsV2 (.ok insights) =
      { isValid := false,
        errors := some ["Invalid schema version: " ++ insights.header.schemaVersion ++
          " (expected 2.x.x)"],
        warnings := some [] } :=
  v2_badVersion_eq insights h

/-- Witness for C2: a parsed V2 document with version `"1.0.0"`. -/
theorem v2_wrong_version_short_circuit_witness :
    validateSecurityInsightsV2 (.ok wrongVersionV2) =
      { isValid := false,
        errors := some ["Invalid schema version: 1.0.0 (expected 2.x.x)"],
        warnings := some [] } :=
  (v2_wrong_version_short_circuit wrongVersionV2 (by decide)).trans (by decide)

/-- C3: a byte buffer that fails to parse — at the routing stage, in the V1
full parse, or in the V2 full parse — yields `isValid = false`, exactly one
error describing the parse failure, zero warnings, and no further checks. -/
theorem malformed_yaml_single_error (p : String → Option GoTime) (now : GoTime) :
    (∀ (input : YamlInput) (e : String), input.headerParse = .error e →
      validateSecurityInsights p now input =
        { isValid := false, errors := some ["Invalid YAML: " ++ e], warnings := some [] }) ∧
    (∀ e : String, validateSecurityInsightsV1 p now (.error e) =
        { isValid := false, errors := some ["Invalid YAML: " ++ e], warnings := some [] }) ∧
    (∀ e : String, validateSecurityInsightsV2 (.error e) =
        { isValid := false, errors := some ["Schema validation failed: " ++ e],
          warnings := some [] }) :=
  ⟨fun input e h => validate_headerError_eq p now input e h,
   fun e => v1_error_eq p now e,
   fun e => v2_error_eq e⟩

/-- Witness for C3: a malformed buffer produces one `Invalid YAML` error. -/
theorem malformed_yaml_single_error_witness :
    validateSecurityInsights sampleParse 0 malformedInput =
      { isValid := false,
        errors := some ["Invalid YAML: yaml: line 1: did not find expected node content"],
        warnings := some [] } :=
  ((malformed_yaml_single_error sampleParse 0).1 malformedInput
    "yaml: line 1: did not find expected node content" rfl).trans (by decide)

/-- C4: every result of `validateSecurityInsights` satisfies
`isValid = true` exactly when its error list is empty, and appending a
warning never changes `isValid`. -/
theorem isValid_iff_no_errors (p : String → Option GoTime) (now : GoTime) (input : YamlInput) :
    ((validateSecurityInsights p now input).isValid = true ↔
      (validateSecurityInsights p now input).errors.getD [] = []) ∧
    (∀ m : String, ((validateSecurityInsights p now input).addWarning m).isValid =
      (validateSecurityInsights p now input).isValid) := by
  refine ⟨validate_result_cases p now input
    (fun r => r.isValid = true ↔ r.errors.getD [] = []) ?_ ?_ ?_ ?_ ?_, fun m => rfl⟩
  · intro e; simp
  · intro si; cases hE : v1Errors si <;> simp [hE]
  · intro e; simp
  · intro ins; simp
  · intro ins; cases hE : v2Errors ins <;> simp [hE]

/-- C5: a parsed V1 document with `schema-version`, `project-url`,
`expiration-date` and `status` all empty yields exactly the four missing
required-field errors, in order, and `isValid = false`: failing checks
collect, they do not short-circuit. -/
theorem v1_four_missing_required_fields (p : String → Option GoTime) (now : GoTime)
    (si : SecurityInsightsV1)
    (h1 : si.header.schemaVersion = "") (h2 : si.header.projectURL = "")
    (h3 : si.header.expirationDate = "") (h4 : si.projectLifecycle.status = "") :
    (validateSecurityInsightsV1 p now (.ok si)).errors =
      some ["Missing required field: header.schema-version",
            "Missing required field: header.project-url",
            "Missing required field: header.expiration-date",
            "Missing required field: project-lifecycle.status"] ∧
    (validateSecurityInsightsV1 p now (.ok si)).isValid = false := by
  rw [v1_ok_eq]
  refine ⟨?_, ?_⟩ <;> simp [v1Errors, h1, h2, h3, h4]

/-- Witness for C5: the all-empty V1 document. -/
theorem v1_four_missing_required_fields_witness :
    (validateSecurityInsightsV1 sampleParse 0 (.ok emptyV1)).errors =
      some ["Missing required field: header.schema-version",
            "Missing required field: header.project-url",
            "Missing required field: header.expiration-date",
            "Missing required field: project-lifecycle.status"] ∧
    (validateSecurityInsightsV1 sampleParse 0 (.ok emptyV1)).isValid = false :=
  v1_four_missing_required_fields sampleParse 0 emptyV1 rfl rfl rfl rfl

/-- C6: for a non-empty `header.expiration-date`, the V1 expiration check
contributes no error (errors equal `v1Errors`, which never contains the
expiration-date error then); the warnings are the expiration segment
followed by a remainder independent of the time parameters; the segment is
exactly the format warning on parse failure, exactly the expired warning
when the parsed date is strictly before `now`, and empty when it is not. -/
theorem v1_expiration_date_check (p : String → Option GoTime) (now : GoTime)
    (si : SecurityInsightsV1) (hexp : si.header.expirationDate ≠ "") :
    ((validateSecurityInsightsV1 p now (.ok si)).errors = some (v1Errors si) ∧
      "Missing required field: header.expiration-date" ∉ v1Errors si) ∧
    (∃ rest : List String, ∀ (q : String → Option GoTime) (m : GoTime),
      (validateSecurityInsightsV1 q m (.ok si)).warnings =
        some (v1ExpirationWarnings q m si ++ rest)) ∧
    (p si.header.expirationDate = none →
      v1ExpirationWarnings p now si =
        ["Invalid expiration-date format (should be RFC3339)"]) ∧
    (∀ t : GoTime, p si.header.expirationDate = some t → now > t →
      v1ExpirationWarnings p now si =
        ["File has expired - please update expiration-date"]) ∧
    (∀ t : GoTime, p si.header.expirationDate = some t → ¬ now > t →
      v1ExpirationWarnings p now si = []) := by
  refine ⟨⟨by rw [v1_ok_eq], ?_⟩, ?_, fun hp => ?_, fun t hp hn => ?_, fun t hp hn => ?_⟩
  · by_cases h1 : si.header.schemaVersion = "" <;> by_cases h2 : si.header.projectURL = "" <;>
      by_cases h4 : si.projectLifecycle.status = "" <;>
      simp +decide [v1Errors, hexp, h1, h2, h4]
  · exact ⟨(if si.header.lastUpdated = "" then
        ["Missing recommended field: header.last-updated"] else []) ++
      ((if si.header.lastReviewed = "" then
        ["Missing recommended field: header.last-reviewed"] else []) ++
      ((if si.projectLifecycle.status = "" then []
        else if statusIsKnown si.projectLifecycle.status then []
        else [unusualStatusMsg "project-lifecycle.status" si.projectLifecycle.status]) ++
      (if si.securityContacts.length = 0 then ["No security-contacts specified"]
       else contactWarnList si.securityContacts 0))),
      fun q m => by rw [v1_ok_eq]; simp [v1Warnings, List.append_assoc]⟩
  · simp [v1ExpirationWarnings, hexp, hp]
  · simp [v1ExpirationWarnings, hexp, hp, hn]
  · simp [v1ExpirationWarnings, hexp, hp, hn]

/-- Witness for C6: `fullV1` at a time after its expiration date is expired
but still `isValid = true`. -/
theorem v1_expiration_date_check_witness :
    v1ExpirationWarnings sampleParse 200 fullV1 =
      ["File has expired - please update expiration-date"] ∧
    (validateSecurityInsightsV1 sampleParse 200 (.ok fullV1)).isValid = true := by
  constructor
  · exact (v1_expiration_date_check sampleParse 200 fullV1
      (by decide)).2.2.2.1 100 (by decide) (by decide)
  · decide

/-- C7: a non-empty status outside `{active, archived, concept, moved, wip}`
yields the unusual-status warning and no status error in both validators,
and with the other required fields present the document stays
`isValid = true`. -/
theorem unusual_status_is_warning :
    (∀ (p : String → Option GoTime) (now : GoTime) (si : SecurityInsightsV1),
      si.projectLifecycle.status ≠ "" → statusIsKnown si.projectLifecycle.status = false →
      (unusualStatusMsg "project-lifecycle.status" si.projectLifecycle.status ∈
          (validateSecurityInsightsV1 p now (.ok si)).warnings.getD [] ∧
        "Missing required field: project-lifecycle.status" ∉ v1Errors si ∧
        (si.header.schemaVersion ≠ "" → si.header.projectURL ≠ "" →
          si.header.expirationDate ≠ "" →
          (validateSecurityInsightsV1 p now (.ok si)).isValid = true))) ∧
    (∀ insights : SecurityInsights,
      goStartsWith insights.header.schemaVersion "2." = true →
      insights.repository.status ≠ "" → statusIsKnown insights.repository.status = false →
      (unusualStatusMsg "repository.status" insights.repository.status ∈
          (validateSecurityInsightsV2 (.ok insights)).warnings.getD [] ∧
        "Missing required field: repository.status" ∉ v2Errors insights ∧
        (insights.header.url ≠ "" → insights.repository.url ≠ "" →
          (validateSecurityInsightsV2 (.ok insights)).isValid = true))) := by
  constructor
  · intro p now si hst hkn
    refine ⟨?_, ?_, fun h1 h2 h3 => ?_⟩
    · rw [v1_ok_eq]
      simp [v1Warnings, hst, hkn]
    · by_cases h1 : si.header.schemaVersion = "" <;> by_cases h2 : si.header.projectURL = "" <;>
        by_cases h3 : si.header.expirationDate = "" <;>
        simp +decide [v1Errors, hst, h1, h2, h3]
    · rw [v1_ok_eq]
      simp [v1Errors, h1, h2, h3, hst]
  · intro insights hv hst hkn
    refine ⟨?_, ?_, fun h1 h2 => ?_⟩
    · rw [v2_ok_eq insights hv]
      simp [v2Warnings, hst, hkn]
    · by_cases h1 : insights.header.url = "" <;> by_cases h2 : insights.repository.url = "" <;>
        simp +decide [v2Errors, hst, h1, h2]
    · rw [v2_ok_eq insights hv]
      simp [v2Errors, h1, h2, hst]

/-- Witness for C7: status `"maintenance"` warns in both validators while the
V2 document stays valid. -/
theorem unusual_status_is_warning_witness :
    unusualStatusMsg "project-lifecycle.status" "maintenance" ∈
      (validateSecurityInsightsV1 sampleParse 0 (.ok fullV1)).warnings.getD [] ∧
    unusualStatusMsg "repository.status" "maintenance" ∈
      (validateSecurityInsightsV2 (.ok fullV2)).warnings.getD [] ∧
    (validateSecurityInsightsV2 (.ok fullV2)).isValid = true := by
  refine ⟨?_, ?_, ?_⟩
  · exact (unusual_status_is_warning.1 sampleParse 0 fullV1 (by decide) (by decide)).1
  · exact (unusual_status_is_warning.2 fullV2 (by decide) (by decide) (by decide)).1
  · exact (unusual_status_is_warning.2 fullV2 (by decide) (by decide) (by decide)).2.2
      (by decide) (by decide)

/-- C8: a parsed V2 document with a `"2."` version and empty `header.url`,
`repository.url` and `repository.status` yields exactly the three missing
required-field errors, in order, and `isValid = false` (collected, no
short-circuit). -/
theorem v2_three_missing_required_fields (insights : SecurityInsights)
    (hv : goStartsWith insights.header.schemaVersion "2." = true)
    (h1 : insights.header.url = "") (h2 : insights.repository.url = "")
    (h3 : insights.repository.status = "") :
    (validateSecurityInsightsV2 (.ok insights)).errors =
      some ["Missing required field: header.url",
            "Missing required field: repository.url",
            "Missing required field: repository.status"] ∧
    (validateSecurityInsightsV2 (.ok insights)).isValid = false := by
  rw [v2_ok_eq insights hv]
  refine ⟨?_, ?_⟩ <;> simp [v2Errors, h1, h2, h3]

/-- Witness for C8: `emptyV2` (version 2.0.0, three empty required fields). -/
theorem v2_three_missing_required_fields_witness :
    (validateSecurityInsightsV2 (.ok emptyV2)).errors =
      some ["Missing required field: header.url",
            "Missing required field: repository.url",
            "Missing required field: repository.status"] ∧
    (validateSecurityInsightsV2 (.ok emptyV2)).isValid = false :=
  v2_three_missing_required_fields emptyV2 (by decide) rfl rfl rfl

/-- C9: validation is a pure function of the parse outcomes and the time
parameters, and the current time influences the result only through the V1
expiration comparison: parse-failure and V2 paths are time-independent, and
two times that compare equally against any parsed expiration date give
identical V1 results. -/
theorem validation_time_dependence (p : String → Option GoTime) (now₁ now₂ : GoTime)
    (input : YamlInput) :
    (∀ e, input.headerParse = .error e →
      validateSecurityInsights p now₁ input = validateSecurityInsights p now₂ input) ∧
    (∀ sv, input.headerParse = .ok sv → goStartsWith sv "2." = true →
      validateSecurityInsights p now₁ input = validateSecurityInsights p now₂ input) ∧
    (∀ si : SecurityInsightsV1,
      (∀ t, p si.header.expirationDate = some t → ((now₁ > t) ↔ (now₂ > t))) →
      validateSecurityInsightsV1 p now₁ (.ok si) =
        validateSecurityInsightsV1 p now₂ (.ok si)) := by
  refine ⟨fun e h => ?_, fun sv h hs => ?_, fun si hiff => ?_⟩
  · rw [validate_headerError_eq p now₁ input e h, validate_headerError_eq p now₂ input e h]
  · rw [validate_route_eq p now₁ input sv h, validate_route_eq p now₂ input sv h]
    simp [hs]
  · rw [v1_ok_eq, v1_ok_eq]
    have hw : v1Warnings p now₁ si = v1Warnings p now₂ si := by
      unfold v1Warnings
      congr 1
      unfold v1ExpirationWarnings
      by_cases hexp : si.header.expirationDate = ""
      · simp [hexp]
      · simp only [hexp, if_false]
        rcases hp : p si.header.expirationDate with _ | t
        · rfl
        · have hi := hiff t hp
          by_cases hn : now₁ > t
          · simp [hn, hi.mp hn]
          · have hn2 : ¬ now₂ > t := fun h2 => hn (hi.mpr h2)
            simp [hn, hn2]
    rw [hw]

/-- Witness for C9: two different times on the expired side of `fullV1`'s
expiration date give identical results. -/
theorem validation_time_dependence_witness :
    validateSecurityInsightsV1 sampleParse 150 (.ok fullV1) =
      validateSecurityInsightsV1 sampleParse 200 (.ok fullV1) := by
  refine (validation_time_dependence sampleParse 150 200 v1Input).2.2 fullV1 ?_
  intro t ht
  simp +decide [sampleParse, fullV1] at ht
  subst ht
  decide

/-- C10: through every path the returned `errors` and `warnings` are non-nil
Go slices (initialized to empty before any check). -/
theorem result_lists_initialized (p : String → Option GoTime) (now : GoTime)
    (input : YamlInput) :
    (validateSecurityInsights p now input).errors.isSome = true ∧
    (validateSecurityInsights p now input).warnings.isSome = true := by
  refine validate_result_cases p now input
    (fun r => r.errors.isSome = true ∧ r.warnings.isSome = true) ?_ ?_ ?_ ?_ ?_ <;>
    intro x <;> simp

end BaselineInit
